import Mathlib

/-!
Verification development for the documents-mcp repository.

This file gives a shallow embedding of the tool registration and
request-routing layer of the repository (the Result Envelope Adapter in
`src/server/utils/tool-adapter.ts` and `src/server/register-tools.ts`, the
Zod input contracts of the six document tools, the read-pdf handler's
resolution and header-check logic, the create-pptx handler's slide
construction, the HTTP transport's `/messages` endpoint and session table
in `src/server/http.ts`), and proves the specified properties about it.

Modelling conventions:
- JavaScript values flowing through the router are modelled by the `Json`
  inductive below; JS numbers are modelled as rationals (`Rat`), which is
  exact for every number any settled claim manipulates.
- Fallible JS code (code that can throw) is modelled with `Except`;
  a thrown JS value is a `Thrown` (either an `Error` carrying a message or
  an arbitrary other value carrying its string coercion).  An `await` of a
  rejected promise rethrows, so a rejected promise and a thrown exception
  are the same constructor in the model.
- External collaborators (the filesystem, base64 decoding by `Buffer`,
  the pdf-lib / pptxgenjs / mammoth libraries, the AI summarizer) are
  passed to the handlers as explicit function parameters, as the spec
  directs: they are opaque async functions from the router's viewpoint.
-/

namespace DocsMcp

/-- Model of a JavaScript/JSON value.  Numbers are rationals (exact for all
integer and decimal literals appearing in this development). -/
inductive Json where
  | null
  | bool (b : Bool)
  | num (q : Rat)
  | str (s : String)
  | arr (items : List Json)
  | obj (fields : List (String × Json))
deriving Repr

/-- JavaScript truthiness of an `Option String` valued field:
`undefined` and the empty string are falsy, every other string is truthy.
This is the semantics of `if (x)` and of `a || b` on optional string
fields in the source. -/
def optStrTruthy : Option String → Bool
  | none => false
  | some s => !s.isEmpty

/-- Escape one character the way `JSON.stringify` does for the characters
occurring in this development (quote, backslash, and the common control
characters; other sub-0x20 code points occur in no tool string). -/
def escapeChar (c : Char) : String :=
  if c = '"' then "\\\""
  else if c = '\\' then "\\\\"
  else if c = '\n' then "\\n"
  else if c = '\r' then "\\r"
  else if c = '\t' then "\\t"
  else String.singleton c

/-- Escape a string for JSON output. -/
def escapeString (s : String) : String :=
  String.join (s.toList.map escapeChar)

/-- Quote and escape a string for JSON output. -/
def quoteString (s : String) : String :=
  "\"" ++ escapeString s ++ "\""

/-- Serialization of a number.  JS float formatting is not modelled in
general; on integers (the only numbers serialized by any settled claim)
this agrees with `JSON.stringify`. -/
def ratToString (q : Rat) : String :=
  if q.den = 1 then toString q.num else toString q.num ++ "/" ++ toString q.den

/-- Indentation produced by `JSON.stringify(x, null, 2)` at nesting
depth `n` : two spaces per level. -/
def indentStr (n : Nat) : String :=
  String.join (List.replicate n "  ")

mutual

/-- Model of `JSON.stringify(v, null, 2)` at nesting depth `ind`. -/
def stringifyJson (ind : Nat) : Json → String
  | .null => "null"
  | .bool true => "true"
  | .bool false => "false"
  | .num q => ratToString q
  | .str s => quoteString s
  | .arr [] => "[]"
  | .arr (x :: xs) =>
    "[\n" ++ String.intercalate ",\n" (stringifyItems (ind + 1) (x :: xs))
      ++ "\n" ++ indentStr ind ++ "]"
  | .obj [] => "\x7b\x7d"
  | .obj (f :: fs) =>
    "\x7b\n" ++ String.intercalate ",\n" (stringifyFields (ind + 1) (f :: fs))
      ++ "\n" ++ indentStr ind ++ "\x7d"

/-- Serialize the items of a JSON array, one indented line each. -/
def stringifyItems (ind : Nat) : List Json → List String
  | [] => []
  | x :: xs => (indentStr ind ++ stringifyJson ind x) :: stringifyItems ind xs

/-- Serialize the fields of a JSON object, one indented `"key": value`
line each. -/
def stringifyFields (ind : Nat) : List (String × Json) → List String
  | [] => []
  | (k, v) :: fs =>
    (indentStr ind ++ quoteString k ++ ": " ++ stringifyJson ind v)
      :: stringifyFields ind fs

end

/-- Model of `JSON.stringify(v, null, 2)` as called by the adapter. -/
def jsStringify (v : Json) : String :=
  stringifyJson 0 v

/-!
Result Envelope Adapter, from `src/server/utils/tool-adapter.ts`
(`wrapToolHandler`).  The identical inlined copy `createHandler` in
`src/server/register-tools.ts` (lines 65-85) is the same wrapper
statement-for-statement, so the one model below embeds both.
-/

/-- Raw handler output, from `interface ToolResult`: a `success` boolean
plus arbitrary additional fields.  Serialization order follows the source
object literals, which all place `success` first. -/
structure ToolResult where
  success : Bool
  extra : List (String × Json)

/-- The JS object a `ToolResult` denotes, for serialization. -/
def ToolResult.toJson (r : ToolResult) : Json :=
  .obj (("success", .bool r.success) :: r.extra)

/-- One content part of an MCP response (`type` is always "text" in this
code base). -/
structure McpContent where
  type : String
  text : String
deriving DecidableEq

/-- MCP response envelope, from `interface McpToolResponse`.  The source
marks `isError` optional but sets it on every path of the adapter. -/
structure McpToolResponse where
  content : List McpContent
  isError : Bool

/-- A thrown JavaScript value: either an `Error` instance (carrying its
`.message`) or any other value (carrying its `String(...)` coercion).
An `await` of a rejected promise rethrows the rejection value, so
rejections are covered by the same constructors. -/
inductive Thrown where
  | jsError (message : String)
  | other (coerced : String)

/-- The message the adapter extracts from a caught value, from
`error instanceof Error ? error.message : String(error)`. -/
def errorMessageOf : Thrown → String
  | .jsError m => m
  | .other s => s

/-- Behavior of one handler invocation: return a result normally, or
raise (throw synchronously / reject the returned promise). -/
inductive HandlerOutcome where
  | ret (r : ToolResult)
  | thrown (e : Thrown)

/-- The JSON object `\x7bsuccess: false, error: msg\x7d` built by the
adapter's catch branch. -/
def failureJson (msg : String) : Json :=
  .obj [("success", .bool false), ("error", .str msg)]

/-- Envelope produced by the adapter's catch branch (tool-adapter.ts
lines 49-52). -/
def failureEnvelope (msg : String) : McpToolResponse :=
  { content := [⟨"text", jsStringify (failureJson msg)⟩], isError := true }

/-- Envelope produced on a normal handler return (tool-adapter.ts lines
42-45): one text part with the verbatim serialization of the result, and
`isError = !result.success`. -/
def successEnvelope (result : ToolResult) : McpToolResponse :=
  { content := [⟨"text", jsStringify result.toJson⟩], isError := !result.success }

/-- Model of `wrapToolHandler` (tool-adapter.ts lines 29-55) and of the
identical `createHandler` (register-tools.ts lines 65-85).  `schemaParse`
models `schema.parse`, which throws a `ZodError` (an `Error`) on invalid
input; the model carries that error's message.  The try block covers both
the validation and the handler call, so either failure reaches the same
catch branch. -/
def wrapToolHandler {Raw α : Type} (schemaParse : Raw → Except String α)
    (handler : α → HandlerOutcome) (args : Raw) : McpToolResponse :=
  match schemaParse args with
  | .error msg => failureEnvelope msg
  | .ok validatedInput =>
    match handler validatedInput with
    | .ret result => successEnvelope result
    | .thrown e => failureEnvelope (errorMessageOf e)

/-!
Zod field parsers.  `z.object(...).parse(args)` validates each declared
field of the raw argument record and applies declared defaults; on any
invalid field it throws a `ZodError`.  The models below carry the
offending issue's message.  (Zod collects the issues of all invalid
fields; the models stop at the first invalid field, which returns a
different message — but fails on exactly the same raw inputs, and every
claim below depends only on which field's check rejects or on rejection
itself.)
-/

/-- Raw arguments: the `Record<string, unknown>` a tool receives. -/
def RawArgs := List (String × Json)

/-- JS type name of a value as zod reports it. -/
def jsTypeName : Json → String
  | .null => "null"
  | .bool _ => "boolean"
  | .num _ => "number"
  | .str _ => "string"
  | .arr _ => "array"
  | .obj _ => "object"

/-- Model of a required `z.string()` field. -/
def parseStringField : Option Json → Except String String
  | none => .error "Required"
  | some (.str s) => .ok s
  | some v => .error ("Expected string, received " ++ jsTypeName v)

/-- Model of a `z.string().optional()` field. -/
def parseOptionalString : Option Json → Except String (Option String)
  | none => .ok none
  | some (.str s) => .ok (some s)
  | some v => .error ("Expected string, received " ++ jsTypeName v)

/-- Model of a `z.boolean().optional().default(d)` field. -/
def parseBoolDefault (d : Bool) : Option Json → Except String Bool
  | none => .ok d
  | some (.bool b) => .ok b
  | some v => .error ("Expected boolean, received " ++ jsTypeName v)

/-- Model of a `z.number().optional().default(d)` field (no bounds). -/
def parseNumberDefault (d : Rat) : Option Json → Except String Rat
  | none => .ok d
  | some (.num q) => .ok q
  | some v => .error ("Expected number, received " ++ jsTypeName v)

/-- Model of a `z.number().optional()` field. -/
def parseOptionalNumber : Option Json → Except String (Option Rat)
  | none => .ok none
  | some (.num q) => .ok (some q)
  | some v => .error ("Expected number, received " ++ jsTypeName v)

/-!
Read-tool input contracts, from `src/tools/read-pdf.ts` (lines 13-29),
`src/tools/read-docx.ts` (lines 13-34) and `src/tools/read-pptx.ts`
(lines 10-26).  All three end in
`.refine((data) => data.filePath || data.base64Content,
        \x7b message: "Either filePath or base64Content must be provided" \x7d)`,
a whole-object refinement that runs after the per-field checks; its
predicate uses JS truthiness, modelled by `optStrTruthy`.
-/

/-- Validated input of the read-pdf and read-pptx contracts (they declare
the same three fields). -/
structure ReadDocInput where
  filePath : Option String
  base64Content : Option String
  prompt : Option String

/-- Refinement message shared by the three read contracts. -/
def readRefineMsg : String := "Either filePath or base64Content must be provided"

/-- Model of the read-pdf schema parse (`schema` in read-pdf.ts). -/
def readPdfSchemaParse (args : RawArgs) : Except String ReadDocInput :=
  match parseOptionalString (args.lookup "filePath") with
  | .error e => .error e
  | .ok filePath =>
    match parseOptionalString (args.lookup "base64Content") with
    | .error e => .error e
    | .ok base64Content =>
      match parseOptionalString (args.lookup "prompt") with
      | .error e => .error e
      | .ok prompt =>
        if optStrTruthy filePath || optStrTruthy base64Content then
          .ok ⟨filePath, base64Content, prompt⟩
        else
          .error readRefineMsg

/-- Model of the read-pptx schema parse (`schema` in read-pptx.ts); its
declared fields and refinement are identical to read-pdf's. -/
def readPptxSchemaParse (args : RawArgs) : Except String ReadDocInput :=
  readPdfSchemaParse args

/-- The `outputFormat` enum of the read-docx contract. -/
inductive DocxOutputFormat where
  | text
  | html
  | both
deriving DecidableEq

/-- Model of `z.enum(["text", "html", "both"]).optional().default("both")`. -/
def parseOutputFormat : Option Json → Except String DocxOutputFormat
  | none => .ok .both
  | some (.str "text") => .ok .text
  | some (.str "html") => .ok .html
  | some (.str "both") => .ok .both
  | some _ => .error "Invalid enum value. Expected 'text' | 'html' | 'both'"

/-- Validated input of the read-docx contract. -/
structure ReadDocxInput where
  filePath : Option String
  base64Content : Option String
  outputFormat : DocxOutputFormat
  prompt : Option String

/-- Model of the read-docx schema parse (`schema` in read-docx.ts). -/
def readDocxSchemaParse (args : RawArgs) : Except String ReadDocxInput :=
  match parseOptionalString (args.lookup "filePath") with
  | .error e => .error e
  | .ok filePath =>
    match parseOptionalString (args.lookup "base64Content") with
    | .error e => .error e
    | .ok base64Content =>
      match parseOutputFormat (args.lookup "outputFormat") with
      | .error e => .error e
      | .ok outputFormat =>
        match parseOptionalString (args.lookup "prompt") with
        | .error e => .error e
        | .ok prompt =>
          if optStrTruthy filePath || optStrTruthy base64Content then
            .ok ⟨filePath, base64Content, outputFormat, prompt⟩
          else
            .error readRefineMsg

/-!
The create-pdf input contract, from the create-pdf tool source
(`TextContentSchema` through `schema`).  The content array is a
discriminated union on the `type` field; `pageSize` is
`z.enum(["A4", "Letter", "Legal"]).optional().default("A4")`; a heading's
`level` is `z.number().min(1).max(6).default(1)`.
-/

/-- The closed page-size value set of the create-pdf contract. -/
inductive PageSize where
  | a4
  | letter
  | legal
deriving DecidableEq

/-- Model of `z.enum(["A4", "Letter", "Legal"]).optional().default("A4")`:
absent means the default, a string is checked against the closed set, and
everything else is rejected — nothing is clamped. -/
def parsePageSize : Option Json → Except String PageSize
  | none => .ok .a4
  | some (.str s) =>
    if s = "A4" then .ok .a4
    else if s = "Letter" then .ok .letter
    else if s = "Legal" then .ok .legal
    else .error ("Invalid enum value. Expected 'A4' | 'Letter' | 'Legal', received '" ++ s ++ "'")
  | some v => .error ("Expected 'A4' | 'Letter' | 'Legal', received " ++ jsTypeName v)

/-- Model of a heading's `level: z.number().min(1).max(6).default(1)`:
absent means 1; a number is rejected outside the closed range and
returned unchanged inside it. -/
def parseHeadingLevel : Option Json → Except String Rat
  | none => .ok 1
  | some (.num q) =>
    if q < 1 then .error "Number must be greater than or equal to 1"
    else if 6 < q then .error "Number must be less than or equal to 6"
    else .ok q
  | some v => .error ("Expected number, received " ++ jsTypeName v)

/-- Model of a color component `z.number().min(0).max(1)` (required
inside the optional color object). -/
def parseUnitNumber : Option Json → Except String Rat
  | none => .error "Required"
  | some (.num q) =>
    if q < 0 then .error "Number must be greater than or equal to 0"
    else if 1 < q then .error "Number must be less than or equal to 1"
    else .ok q
  | some v => .error ("Expected number, received " ++ jsTypeName v)

/-- Validated color object of a text content item. -/
structure RgbColor where
  r : Rat
  g : Rat
  b : Rat

/-- Model of the optional color object of `TextContentSchema`. -/
def parseColor : Option Json → Except String (Option RgbColor)
  | none => .ok none
  | some (.obj fields) =>
    match parseUnitNumber (fields.lookup "r") with
    | .error e => .error e
    | .ok r =>
      match parseUnitNumber (fields.lookup "g") with
      | .error e => .error e
      | .ok g =>
        match parseUnitNumber (fields.lookup "b") with
        | .error e => .error e
        | .ok b => .ok (some ⟨r, g, b⟩)
  | some v => .error ("Expected object, received " ++ jsTypeName v)

/-- The image format enum of `ImageContentSchema`. -/
inductive PdfImageFormat where
  | png
  | jpg
  | jpeg
deriving DecidableEq

/-- Model of `format: z.enum(["png", "jpg", "jpeg"])`. -/
def parsePdfImageFormat : Option Json → Except String PdfImageFormat
  | some (.str "png") => .ok .png
  | some (.str "jpg") => .ok .jpg
  | some (.str "jpeg") => .ok .jpeg
  | none => .error "Required"
  | some _ => .error "Invalid enum value. Expected 'png' | 'jpg' | 'jpeg'"

/-- Model of `z.array(z.string())`. -/
def parseStringList : List Json → Except String (List String)
  | [] => .ok []
  | .str s :: rest =>
    match parseStringList rest with
    | .error e => .error e
    | .ok ss => .ok (s :: ss)
  | v :: _ => .error ("Expected string, received " ++ jsTypeName v)

/-- Model of a required `headers: z.array(z.string())` field. -/
def parseStringArrayField : Option Json → Except String (List String)
  | none => .error "Required"
  | some (.arr xs) => parseStringList xs
  | some v => .error ("Expected array, received " ++ jsTypeName v)

/-- Model of `z.array(z.array(z.string()))` element lists. -/
def parseStringListList : List Json → Except String (List (List String))
  | [] => .ok []
  | .arr xs :: rest =>
    match parseStringList xs with
    | .error e => .error e
    | .ok row =>
      match parseStringListList rest with
      | .error e => .error e
      | .ok rows => .ok (row :: rows)
  | v :: _ => .error ("Expected array, received " ++ jsTypeName v)

/-- Model of a required `rows: z.array(z.array(z.string()))` field. -/
def parseRowsField : Option Json → Except String (List (List String))
  | none => .error "Required"
  | some (.arr xs) => parseStringListList xs
  | some v => .error ("Expected array, received " ++ jsTypeName v)

/-- Validated content item of the create-pdf contract
(`ContentItemSchema`, a discriminated union on `type`). -/
inductive PdfContentItem where
  | text (content : String) (fontSize : Rat) (bold : Bool) (color : Option RgbColor)
  | heading (content : String) (level : Rat)
  | table (headers : List String) (rows : List (List String))
  | image (base64 : String) (format : PdfImageFormat) (width height : Option Rat)
  | pageBreak

/-- Model of `ContentItemSchema.parse` on one array element: dispatch on
the `type` discriminator, then validate that variant's fields. -/
def parseContentItem : Json → Except String PdfContentItem
  | .obj fields =>
    match fields.lookup "type" with
    | some (.str "text") =>
      match parseStringField (fields.lookup "content") with
      | .error e => .error e
      | .ok content =>
        match parseNumberDefault 12 (fields.lookup "fontSize") with
        | .error e => .error e
        | .ok fontSize =>
          match parseBoolDefault false (fields.lookup "bold") with
          | .error e => .error e
          | .ok bold =>
            match parseColor (fields.lookup "color") with
            | .error e => .error e
            | .ok color => .ok (.text content fontSize bold color)
    | some (.str "heading") =>
      match parseStringField (fields.lookup "content") with
      | .error e => .error e
      | .ok content =>
        match parseHeadingLevel (fields.lookup "level") with
        | .error e => .error e
        | .ok level => .ok (.heading content level)
    | some (.str "table") =>
      match parseStringArrayField (fields.lookup "headers") with
      | .error e => .error e
      | .ok headers =>
        match parseRowsField (fields.lookup "rows") with
        | .error e => .error e
        | .ok rows => .ok (.table headers rows)
    | some (.str "image") =>
      match parseStringField (fields.lookup "base64") with
      | .error e => .error e
      | .ok base64 =>
        match parsePdfImageFormat (fields.lookup "format") with
        | .error e => .error e
        | .ok format =>
          match parseOptionalNumber (fields.lookup "width") with
          | .error e => .error e
          | .ok width =>
            match parseOptionalNumber (fields.lookup "height") with
            | .error e => .error e
            | .ok height => .ok (.image base64 format width height)
    | some (.str "pageBreak") => .ok .pageBreak
    | _ => .error
        "Invalid discriminator value. Expected 'text' | 'heading' | 'table' | 'image' | 'pageBreak'"
  | v => .error ("Expected object, received " ++ jsTypeName v)

/-- Model of the content-array parse `z.array(ContentItemSchema)`
applied to the elements: every element must validate. -/
def parseContentItems : List Json → Except String (List PdfContentItem)
  | [] => .ok []
  | x :: xs =>
    match parseContentItem x with
    | .error e => .error e
    | .ok item =>
      match parseContentItems xs with
      | .error e => .error e
      | .ok items => .ok (item :: items)

/-- Model of the required `content: z.array(ContentItemSchema)` field. -/
def parseContentField : Option Json → Except String (List PdfContentItem)
  | none => .error "Required"
  | some (.arr xs) => parseContentItems xs
  | some v => .error ("Expected array, received " ++ jsTypeName v)

/-- Validated input of the create-pdf contract. -/
structure CreatePdfInput where
  title : String
  author : Option String
  content : List PdfContentItem
  outputPath : Option String
  pageSize : PageSize

/-- Model of the create-pdf schema parse (`schema` in the create-pdf
tool source, lines 83-96). -/
def createPdfSchemaParse (args : RawArgs) : Except String CreatePdfInput :=
  match parseStringField (args.lookup "title") with
  | .error e => .error e
  | .ok title =>
    match parseOptionalString (args.lookup "author") with
    | .error e => .error e
    | .ok author =>
      match parseContentField (args.lookup "content") with
      | .error e => .error e
      | .ok content =>
        match parseOptionalString (args.lookup "outputPath") with
        | .error e => .error e
        | .ok outputPath =>
          match parsePageSize (args.lookup "pageSize") with
          | .error e => .error e
          | .ok pageSize => .ok ⟨title, author, content, outputPath, pageSize⟩

/-!
The read-pdf handler, from `src/tools/read-pdf.ts` lines 40-147.  The
collaborators it calls are explicit parameters:
- `resolvePath` models lines 46-48 (`path.isAbsolute` / `path.join` with
  the process working directory);
- `fsRead` models `fs.readFile`, returning the file bytes or a thrown
  value (its catch builds `Failed to read file: ...` from
  `error instanceof Error ? error.message : "Unknown error"`);
- `base64Decode` models `Buffer.from(s, "base64")`, which never throws
  (Node ignores invalid characters), so its `catch` arm in the source is
  unreachable and the model makes it a total function;
- `processPdf` models the whole `try` block of lines 82-146 — the pure
  regex-based version/page-count/text extraction and the optional
  `analyzeDocument` AI call — as one opaque function of the buffer and
  the prompt.  The claims settled here are exactly about that block not
  being reached, so its internals are irrelevant.
A buffer is a byte list; `toString("latin1", 0, 5)` is a bijective
byte-to-char read, so the header comparison is a byte comparison.
-/

/-- The five ASCII bytes of "%PDF-". -/
def pdfHeaderBytes : List Nat := [37, 80, 68, 70, 45]

/-- Handler result `\x7bsuccess: false, error: msg\x7d`. -/
def failResult (msg : String) : ToolResult :=
  ⟨false, [("error", .str msg)]⟩

/-- Fixed message of the read-pdf header guard (read-pdf.ts line 78). -/
def pdfHeaderErrorMsg : String := "Invalid PDF file: Missing %PDF header"

/-- The message the read-file catch arm extracts from a thrown value
(`error instanceof Error ? error.message : "Unknown error"`). -/
def fsErrorMessageOf : Thrown → String
  | .jsError m => m
  | .other _ => "Unknown error"

/-- Model of read-pdf.ts lines 75-147: the `%PDF-` signature guard
(`pdfBuffer.length < 5 || pdfBuffer.toString("latin1", 0, 5) !== "%PDF-"`;
the source's `!pdfBuffer ||` disjunct is always false, a `Buffer` being
truthy), then the extraction/analysis block. -/
def readPdfAfterResolve (processPdf : List Nat → Option String → ToolResult)
    (pdfBuffer : List Nat) (prompt : Option String) : ToolResult :=
  if pdfBuffer.length < 5 ∨ pdfBuffer.take 5 ≠ pdfHeaderBytes then
    failResult pdfHeaderErrorMsg
  else
    processPdf pdfBuffer prompt

/-- Model of the read-pdf handler (read-pdf.ts lines 40-147).  The
`if (filePath) ... else if (base64Content) ... else ...` chain uses JS
truthiness on the validated optional strings. -/
def readPdfHandler (resolvePath : String → String)
    (fsRead : String → Except Thrown (List Nat))
    (base64Decode : String → List Nat)
    (processPdf : List Nat → Option String → ToolResult)
    (input : ReadDocInput) : ToolResult :=
  if optStrTruthy input.filePath then
    match fsRead (resolvePath (input.filePath.getD "")) with
    | .error e => failResult ("Failed to read file: " ++ fsErrorMessageOf e)
    | .ok pdfBuffer => readPdfAfterResolve processPdf pdfBuffer input.prompt
  else if optStrTruthy input.base64Content then
    readPdfAfterResolve processPdf (base64Decode (input.base64Content.getD "")) input.prompt
  else
    failResult readRefineMsg

/-!
The create-pptx handler, from the create-pptx tool source (lines
104-129 for the validated slide shape, 266-390 for the handler).  The
model records, per slide and in call order, the pptxgenjs mutations the
handler performs (`slide.background = ...`, `addNotes`, `addText`,
`addImage`, `addShape`, `addTable`, `addChart`), keeping the payloads the
claims observe (texts, table data, shape names) and abstracting the pure
geometry/styling option objects.  Writing the file or producing base64 is
the pptxgenjs collaborator, passed in as `writeBase64`; the output-path
resolution of lines 367-369 is the `resolveOut` parameter (path.join with
the OUTPUT_DIR environment default).  Filesystem failures of
`fs.mkdir`/`writeFile` are outside the model (the handler has no catch
for them).
-/

/-- The slide layout enum of `SlideSchema`. -/
inductive SlideLayout where
  | title
  | titleAndContent
  | blank
  | sectionHeader
deriving DecidableEq

/-- The shape-type enum of `ShapeSchema`. -/
inductive PptxShapeType where
  | rect
  | ellipse
  | triangle
  | line
  | arrow
deriving DecidableEq

/-- Model of `getShapeName` (create-pptx source lines 139-148). -/
def getShapeName : PptxShapeType → String
  | .rect => "rect"
  | .ellipse => "ellipse"
  | .triangle => "triangle"
  | .line => "line"
  | .arrow => "rightArrow"

/-- One chart data series of `ChartSchema`. -/
structure ChartSeries where
  name : String
  labels : List String
  values : List Rat

/-- Validated slide element (`SlideElementSchema`, a discriminated union
on `type`); defaulted geometry/styling fields are carried as values. -/
inductive PptxSlideElement where
  | textBox (text : String) (x y w h fontSize : Rat) (bold : Bool)
      (color : String) (align : String)
  | image (base64 : String) (x y w h : Rat)
  | shape (shapeType : PptxShapeType) (x y w h : Rat) (fill : String)
      (line : Option String)
  | table (headers : List String) (rows : List (List String)) (x y w : Rat)
  | chart (chartType : String) (title : Option String) (data : List ChartSeries)
      (x y w h : Rat)

/-- Validated slide (`SlideSchema`). -/
structure PptxSlide where
  title : Option String
  subtitle : Option String
  layout : SlideLayout
  elements : List PptxSlideElement
  backgroundColor : Option String
  notes : Option String

/-- Validated input of the create-pptx contract (`schema` in the
create-pptx source, lines 120-129). -/
structure CreatePptxInput where
  title : String
  author : Option String
  subject : Option String
  slides : List PptxSlide
  outputPath : Option String

/-- One recorded pptxgenjs mutation on a slide. -/
inductive SlideItem where
  | background (color : String)
  | notes (text : String)
  | text (text : String)
  | image (base64 : String)
  | shape (name : String)
  | table (headers : List String) (rows : List (List String))
  | chart (chartType : String)
deriving DecidableEq

/-- Model of `addElementsToSlide` (create-pptx source lines 157-261):
one mutation per element, in order. -/
def addElementsToSlide (elements : List PptxSlideElement) : List SlideItem :=
  elements.map fun e =>
    match e with
    | .textBox t _ _ _ _ _ _ _ _ => .text t
    | .image b _ _ _ _ => .image b
    | .shape st _ _ _ _ _ _ => .shape (getShapeName st)
    | .table headers rows _ _ _ => .table headers rows
    | .chart ct _ _ _ _ _ _ => .chart ct

/-- Model of the per-slide loop body (create-pptx source lines 282-338):
background and notes when truthy, the layout-dependent title/subtitle
texts, then the elements. -/
def buildSlide (s : PptxSlide) : List SlideItem :=
  (if optStrTruthy s.backgroundColor then [SlideItem.background (s.backgroundColor.getD "")] else [])
    ++ (if optStrTruthy s.notes then [SlideItem.notes (s.notes.getD "")] else [])
    ++ (if s.layout = .title ∨ s.layout = .sectionHeader then
          (if optStrTruthy s.title then [SlideItem.text (s.title.getD "")] else [])
            ++ (if optStrTruthy s.subtitle then [SlideItem.text (s.subtitle.getD "")] else [])
        else if s.layout = .titleAndContent then
          (if optStrTruthy s.title then [SlideItem.text (s.title.getD "")] else [])
        else [])
    ++ addElementsToSlide s.elements

/-- Model of the default title slide added when no slides were supplied
(create-pptx source lines 341-364): the title text, then `By <author>`
when the author is truthy. -/
def defaultTitleSlide (title : String) (author : Option String) : List SlideItem :=
  [SlideItem.text title]
    ++ (if optStrTruthy author then [SlideItem.text ("By " ++ author.getD "")] else [])

/-- Model of the presentation the handler builds before writing (lines
282-364): one slide per supplied slide, plus the default title slide
when none were supplied. -/
def buildPresentation (input : CreatePptxInput) : List (List SlideItem) :=
  input.slides.map buildSlide
    ++ (if input.slides.length = 0 then [defaultTitleSlide input.title input.author] else [])

/-- Model of the JS `n || 1` used for `slideCount` (a number `0` is
falsy). -/
def jsOrNat (n fallback : Nat) : Nat :=
  if n = 0 then fallback else n

/-- Model of the create-pptx handler (create-pptx source lines 266-390).
`writeBase64` models `pptx.write(\x7boutputType: "base64"\x7d)` and
`resolveOut` the absolute output-path computation of lines 367-369. -/
def createPptxHandler (writeBase64 : List (List SlideItem) → String)
    (resolveOut : String → String) (input : CreatePptxInput) : ToolResult :=
  let pres := buildPresentation input
  if optStrTruthy input.outputPath then
    ⟨true, [("message", .str "PPTX created successfully"),
            ("filePath", .str (resolveOut (input.outputPath.getD ""))),
            ("slideCount", .num (jsOrNat input.slides.length 1))]⟩
  else
    ⟨true, [("message", .str "PPTX created successfully"),
            ("base64", .str (writeBase64 pres)),
            ("slideCount", .num (jsOrNat input.slides.length 1))]⟩

/-!
The HTTP/SSE transport, from `src/server/http.ts`.  The session table is
`const transports = new Map<string, SSEServerTransport>()`; a JS `Map` is
modelled as an association list with at most one binding per key:
`Map.set` replaces in place or appends, `Map.delete` removes the
binding, `Map.get` is `List.lookup`.  The transport type is a type
parameter — the router never inspects it.
-/

/-- Model of `Map.set`: replace the existing binding in place, or append
a new one. -/
def mapSet {τ : Type} : List (String × τ) → String → τ → List (String × τ)
  | [], k, v => [(k, v)]
  | (k', v') :: rest, k, v =>
    if k' = k then (k, v) :: rest else (k', v') :: mapSet rest k v

/-- Model of `Map.delete`: remove any binding of the key; deleting an
absent key changes nothing, and the operation never fails. -/
def mapDelete {τ : Type} (m : List (String × τ)) (k : String) : List (String × τ) :=
  m.filter fun p => p.1 ≠ k

/-- Model of the `GET /sse` session setup (http.ts lines 35-58): a fresh
id is drawn from `crypto.randomUUID()` (passed in as `newId`, since the
generator is a randomness collaborator) and the transport is stored under
it.  The server instance creation and `server.connect` carry no router
state beyond this binding. -/
def openSession {τ : Type} (transports : List (String × τ)) (newId : String)
    (transport : τ) : List (String × τ) :=
  mapSet transports newId transport

/-- Model of the `res.on("close", ...)` teardown (http.ts lines 51-54):
`transports.delete(sessionId)`. -/
def closeSession {τ : Type} (transports : List (String × τ)) (sessionId : String) :
    List (String × τ) :=
  mapDelete transports sessionId

/-- An HTTP response: a status code and a JSON body. -/
structure HttpResponse where
  status : Nat
  body : Json

/-- Model of the `POST /messages` endpoint (http.ts lines 64-85).
`req.query.sessionId` is absent or a string, and `if (!sessionId)` uses
JS truthiness; `handlePostMessage` models
`transport.handlePostMessage(req, res)`, which either writes the routed
reply or throws. -/
def postMessages {τ : Type} (transports : List (String × τ))
    (sessionId : Option String)
    (handlePostMessage : τ → Except Thrown HttpResponse) : HttpResponse :=
  if !optStrTruthy sessionId then
    ⟨400, .obj [("error", .str "Missing sessionId query parameter")]⟩
  else
    match transports.lookup (sessionId.getD "") with
    | none => ⟨404, .obj [("error", .str "Session not found. Connect to /sse first.")]⟩
    | some transport =>
      match handlePostMessage transport with
      | .ok reply => reply
      | .error _ => ⟨500, .obj [("error", .str "Internal server error")]⟩

/-!
Tool registration, from `src/server/register-tools.ts`.  `registerAllTools`
issues six `server.tool(name, description, shape, createHandler(...))`
calls in a fixed order; the registration record is modelled by the two
fields the introspection claim observes (the schema shape and the wrapped
handler are also registered, but `toolList` exports exactly the
name/description pairs).  The name and description constants are the ones
exported by each tool module.
-/

/-- One registered tool as seen by introspection. -/
structure ToolRegistration where
  name : String
  description : String
deriving DecidableEq

/-- Tool name constant of the create-pdf module. -/
def createPdfName : String := "create-pdf"

/-- Tool description constant of the create-pdf module. -/
def createPdfDescription : String :=
  "Create a PDF document with text, headings, tables, and images"

/-- Tool name constant of the create-docx module. -/
def createDocxName : String := "create-docx"

/-- Tool description constant of the create-docx module. -/
def createDocxDescription : String :=
  "Create a DOCX (Word) document with text, headings, lists, tables, and images"

/-- Tool name constant of the create-pptx module. -/
def createPptxName : String := "create-pptx"

/-- Tool description constant of the create-pptx module. -/
def createPptxDescription : String :=
  "Create a PPTX (PowerPoint) presentation with slides, text, images, shapes, tables, and charts"

/-- Tool name constant of the read-pdf module. -/
def readPdfName : String := "read-pdf"

/-- Tool description constant of the read-pdf module. -/
def readPdfDescription : String :=
  "Extract text content and metadata from a PDF file. Can also perform AI analysis if a prompt is provided."

/-- Tool name constant of the read-docx module. -/
def readDocxName : String := "read-docx"

/-- Tool description constant of the read-docx module. -/
def readDocxDescription : String :=
  "Extract text content from a DOCX (Word) file. Can also perform AI analysis if a prompt is provided."

/-- Tool name constant of the read-pptx module. -/
def readPptxName : String := "read-pptx"

/-- Tool description constant of the read-pptx module. -/
def readPptxDescription : String :=
  "Extract text content from a PPTX (PowerPoint) file. Can also perform AI analysis if a prompt is provided."

/-- Model of `registerAllTools` (register-tools.ts lines 90-114): the six
`server.tool(...)` calls append registrations to the server in source
order. -/
def registerAllTools (server : List ToolRegistration) : List ToolRegistration :=
  server ++
    [⟨createPdfName, createPdfDescription⟩,
     ⟨createDocxName, createDocxDescription⟩,
     ⟨createPptxName, createPptxDescription⟩,
     ⟨readPdfName, readPdfDescription⟩,
     ⟨readDocxName, readDocxDescription⟩,
     ⟨readPptxName, readPptxDescription⟩]

/-- Model of the exported `toolList` (register-tools.ts lines 133-140). -/
def toolList : List ToolRegistration :=
  [⟨createPdfName, createPdfDescription⟩,
   ⟨createDocxName, createDocxDescription⟩,
   ⟨createPptxName, createPptxDescription⟩,
   ⟨readPdfName, readPdfDescription⟩,
   ⟨readDocxName, readDocxDescription⟩,
   ⟨readPptxName, readPptxDescription⟩]

/-- C1: the wrapped tool handler is total — for every raw input and every
handler behavior it returns a well-formed envelope with exactly one
content part (never raising), and when the handler raises (throws or
rejects) it returns the envelope whose single text part serializes
`\x7bsuccess: false, error: <message or string coercion>\x7d` with
`isError` set to true. -/
theorem wrapToolHandler_total_and_catches {Raw α : Type}
    (schemaParse : Raw → Except String α) (handler : α → HandlerOutcome) (args : Raw) :
    (wrapToolHandler schemaParse handler args).content.length = 1
    ∧ (∀ (v : α) (e : Thrown), schemaParse args = .ok v → handler v = .thrown e →
        wrapToolHandler schemaParse handler args =
          ⟨[⟨"text", jsStringify (failureJson (errorMessageOf e))⟩], true⟩) := by
  constructor
  · unfold wrapToolHandler
    cases h1 : schemaParse args with
    | error msg => simp [failureEnvelope]
    | ok v =>
      cases h2 : handler v <;> simp [h2, successEnvelope, failureEnvelope]
  · intro v e hparse hthrown
    simp [wrapToolHandler, hparse, hthrown, failureEnvelope]

/-- Witness for C1: a handler that throws an `Error` with message "boom"
behind an always-accepting contract yields exactly the serialized failure
envelope. -/
theorem wrapToolHandler_total_and_catches_witness :
    wrapToolHandler (fun _ : Unit => Except.ok ())
        (fun _ => HandlerOutcome.thrown (Thrown.jsError "boom")) ()
      = ⟨[⟨"text", jsStringify (failureJson "boom")⟩], true⟩ :=
  (wrapToolHandler_total_and_catches (fun _ : Unit => Except.ok ())
      (fun _ => HandlerOutcome.thrown (Thrown.jsError "boom")) ()).2
    () (Thrown.jsError "boom") rfl rfl

/-- C2: when schema validation fails, the wrapped handler returns the
failure envelope carrying the validation message with `isError` true, and
the underlying handler is never invoked — the response is the same
whatever the handler would have done. -/
theorem wrapToolHandler_validation_failure {Raw α : Type}
    (schemaParse : Raw → Except String α) (handler handler2 : α → HandlerOutcome)
    (args : Raw) (msg : String) (hfail : schemaParse args = .error msg) :
    wrapToolHandler schemaParse handler args
      = ⟨[⟨"text", jsStringify (failureJson msg)⟩], true⟩
    ∧ wrapToolHandler schemaParse handler args
      = wrapToolHandler schemaParse handler2 args := by
  simp [wrapToolHandler, hfail, failureEnvelope]

/-- Witness for C2: dispatching the read-pdf contract on the empty
argument record fails its refinement, the envelope carries that message,
and a returning handler and a throwing handler produce the identical
envelope (the handler is not consulted). -/
theorem wrapToolHandler_validation_failure_witness :
    wrapToolHandler readPdfSchemaParse (fun _ => HandlerOutcome.ret ⟨true, []⟩)
        ([] : RawArgs)
      = ⟨[⟨"text", jsStringify (failureJson readRefineMsg)⟩], true⟩
    ∧ wrapToolHandler readPdfSchemaParse (fun _ => HandlerOutcome.ret ⟨true, []⟩)
        ([] : RawArgs)
      = wrapToolHandler readPdfSchemaParse
          (fun _ => HandlerOutcome.thrown (Thrown.other "x")) ([] : RawArgs) :=
  wrapToolHandler_validation_failure readPdfSchemaParse
    (fun _ => HandlerOutcome.ret ⟨true, []⟩)
    (fun _ => HandlerOutcome.thrown (Thrown.other "x")) [] readRefineMsg rfl

/-- C3: on a normal handler return the adapter produces exactly one
content part of kind "text" carrying the verbatim JSON serialization of
the Result Object, sets `isError` to the negation of its `success` field,
and the envelope is a deterministic function of the Result Object alone:
any wrapped call whose handler returns the same Result Object produces
the identical envelope. -/
theorem wrapToolHandler_success_envelope {Raw α : Type}
    (schemaParse : Raw → Except String α) (handler : α → HandlerOutcome)
    (args : Raw) (v : α) (result : ToolResult)
    (hparse : schemaParse args = .ok v) (hret : handler v = .ret result) :
    wrapToolHandler schemaParse handler args = successEnvelope result
    ∧ (successEnvelope result).content = [⟨"text", jsStringify result.toJson⟩]
    ∧ (successEnvelope result).isError = !result.success
    ∧ ∀ {Raw2 α2 : Type} (schemaParse2 : Raw2 → Except String α2)
        (handler2 : α2 → HandlerOutcome) (args2 : Raw2) (v2 : α2),
        schemaParse2 args2 = .ok v2 → handler2 v2 = .ret result →
        wrapToolHandler schemaParse2 handler2 args2
          = wrapToolHandler schemaParse handler args := by
  refine ⟨by simp [wrapToolHandler, hparse, hret], rfl, rfl, ?_⟩
  intro Raw2 α2 schemaParse2 handler2 args2 v2 hparse2 hret2
  simp [wrapToolHandler, hparse, hret, hparse2, hret2]

/-- Witness for C3: an echo-style handler returning
`\x7bsuccess: true, msg: "hi"\x7d` yields the envelope with that
serialization and `isError` false, identically across two distinct
wrapped calls returning the same Result Object. -/
theorem wrapToolHandler_success_envelope_witness :
    wrapToolHandler (fun _ : Unit => Except.ok ())
        (fun _ => HandlerOutcome.ret ⟨true, [("msg", .str "hi")]⟩) ()
      = successEnvelope ⟨true, [("msg", .str "hi")]⟩
    ∧ (successEnvelope ⟨true, [("msg", .str "hi")]⟩).content
      = [⟨"text", jsStringify (ToolResult.toJson ⟨true, [("msg", .str "hi")]⟩)⟩]
    ∧ (successEnvelope ⟨true, [("msg", .str "hi")]⟩).isError = false
    ∧ wrapToolHandler (fun _ : Bool => Except.ok 0)
        (fun _ : Nat => HandlerOutcome.ret ⟨true, [("msg", .str "hi")]⟩) true
      = wrapToolHandler (fun _ : Unit => Except.ok ())
          (fun _ => HandlerOutcome.ret ⟨true, [("msg", .str "hi")]⟩) () := by
  have h := wrapToolHandler_success_envelope (fun _ : Unit => Except.ok ())
    (fun _ => HandlerOutcome.ret ⟨true, [("msg", .str "hi")]⟩) () ()
    ⟨true, [("msg", .str "hi")]⟩ rfl rfl
  exact ⟨h.1, h.2.1, h.2.2.1, h.2.2.2 (fun _ : Bool => Except.ok 0)
    (fun _ : Nat => HandlerOutcome.ret ⟨true, [("msg", .str "hi")]⟩) true 0 rfl rfl⟩

/-- A nonempty string is truthy. -/
theorem optStrTruthy_of_ne {s : String} (h : s ≠ "") : optStrTruthy (some s) = true := by
  cases hb : s.isEmpty with
  | false => simp [optStrTruthy, hb]
  | true => exact absurd ((String.isEmpty_iff s).mp hb) h

/-- C4: for each of the three read contracts, the empty input (neither
`filePath` nor `base64Content`) fails validation with the fixed message
naming the missing alternative, and an input supplying both fields (with
a nonempty path, since the refinement uses JS truthiness) passes. -/
theorem read_contract_disjunction :
    (readPdfSchemaParse [] = .error readRefineMsg
     ∧ readDocxSchemaParse [] = .error readRefineMsg
     ∧ readPptxSchemaParse [] = .error readRefineMsg)
    ∧ (∀ filePath base64Content : String, filePath ≠ "" →
        readPdfSchemaParse
            [("filePath", .str filePath), ("base64Content", .str base64Content)]
          = .ok ⟨some filePath, some base64Content, none⟩
        ∧ readDocxSchemaParse
            [("filePath", .str filePath), ("base64Content", .str base64Content)]
          = .ok ⟨some filePath, some base64Content, .both, none⟩
        ∧ readPptxSchemaParse
            [("filePath", .str filePath), ("base64Content", .str base64Content)]
          = .ok ⟨some filePath, some base64Content, none⟩) := by
  refine ⟨⟨rfl, rfl, rfl⟩, ?_⟩
  intro filePath base64Content hne
  refine ⟨?_, ?_, ?_⟩ <;>
    simp [readPdfSchemaParse, readDocxSchemaParse, readPptxSchemaParse,
      parseOptionalString, parseOutputFormat, List.lookup,
      optStrTruthy_of_ne hne]

/-- Witness for C4: the concrete input supplying both a path and base64
content passes all three read contracts. -/
theorem read_contract_disjunction_witness :
    readPdfSchemaParse [("filePath", .str "a.pdf"), ("base64Content", .str "QUJD")]
      = .ok ⟨some "a.pdf", some "QUJD", none⟩
    ∧ readDocxSchemaParse [("filePath", .str "a.pdf"), ("base64Content", .str "QUJD")]
      = .ok ⟨some "a.pdf", some "QUJD", .both, none⟩
    ∧ readPptxSchemaParse [("filePath", .str "a.pdf"), ("base64Content", .str "QUJD")]
      = .ok ⟨some "a.pdf", some "QUJD", none⟩ :=
  read_contract_disjunction.2 "a.pdf" "QUJD" (by decide)

/-- An array whose parse must visit a failing element never validates. -/
theorem parseContentItems_mem_error {x : Json} {xs : List Json} {e : String}
    (hmem : x ∈ xs) (hx : parseContentItem x = .error e) :
    ∀ out, parseContentItems xs ≠ .ok out := by
  induction xs with
  | nil => cases hmem
  | cons y ys ih =>
    intro out hok
    rcases List.mem_cons.mp hmem with rfl | hmem'
    · rw [parseContentItems, hx] at hok
      cases hok
    · rw [parseContentItems] at hok
      cases hy : parseContentItem y with
      | error ey => rw [hy] at hok; cases hok
      | ok item =>
        rw [hy] at hok
        cases hys : parseContentItems ys with
        | error eys => rw [hys] at hok; cases hok
        | ok items => exact ih hmem' items hys

/-- A heading item carrying an out-of-range `level` never validates. -/
theorem parseContentItem_heading_bad_level {fields : List (String × Json)} {q : Rat}
    (htype : fields.lookup "type" = some (.str "heading"))
    (hlevel : fields.lookup "level" = some (.num q))
    (hq : q < 1 ∨ 6 < q) :
    ∃ e, parseContentItem (.obj fields) = .error e := by
  have hlev : ∃ e, parseHeadingLevel (fields.lookup "level") = .error e := by
    rw [hlevel]
    rcases hq with hq | hq
    · refine ⟨"Number must be greater than or equal to 1", ?_⟩
      rw [parseHeadingLevel, if_pos hq]
    · refine ⟨"Number must be less than or equal to 6", ?_⟩
      have hnot : ¬ q < 1 := by linarith
      rw [parseHeadingLevel, if_neg hnot, if_pos hq]
  rw [parseContentItem, htype]
  cases hc : parseStringField (fields.lookup "content") with
  | error ec => exact ⟨ec, rfl⟩
  | ok content =>
    obtain ⟨e, he⟩ := hlev
    rw [he]
    exact ⟨e, rfl⟩

/-- C5: the create-pdf contract uses closed value sets.  Any input whose
`pageSize` field is a string outside \x7bA4, Letter, Legal\x7d is
rejected by validation; any input whose content array contains a heading
whose `level` is a number outside the range 1..6 is rejected; an accepted
heading level is returned exactly as supplied (never clamped); and an
accepted `pageSize` value is exactly one of the three enum strings,
mapped to itself (never coerced from an out-of-set value). -/
theorem createPdf_closed_value_sets :
    (∀ (s : String) (args : RawArgs) (out : CreatePdfInput),
       s ≠ "A4" → s ≠ "Letter" → s ≠ "Legal" →
       args.lookup "pageSize" = some (.str s) →
       createPdfSchemaParse args ≠ .ok out)
    ∧ (∀ (args : RawArgs) (items : List Json) (fields : List (String × Json))
         (q : Rat) (out : CreatePdfInput),
       args.lookup "content" = some (.arr items) →
       Json.obj fields ∈ items →
       fields.lookup "type" = some (.str "heading") →
       fields.lookup "level" = some (.num q) →
       (q < 1 ∨ 6 < q) →
       createPdfSchemaParse args ≠ .ok out)
    ∧ (∀ q r : Rat, parseHeadingLevel (some (.num q)) = .ok r → r = q)
    ∧ (∀ (v : Json) (p : PageSize), parsePageSize (some v) = .ok p →
         (v = .str "A4" ∧ p = .a4) ∨ (v = .str "Letter" ∧ p = .letter)
           ∨ (v = .str "Legal" ∧ p = .legal)) := by
  refine ⟨?_, ?_, ?_, ?_⟩
  · intro s args out h1 h2 h3 hlook hok
    rw [createPdfSchemaParse] at hok
    cases ht : parseStringField (args.lookup "title") with
    | error e => rw [ht] at hok; cases hok
    | ok title =>
      rw [ht] at hok
      cases ha : parseOptionalString (args.lookup "author") with
      | error e => rw [ha] at hok; cases hok
      | ok author =>
        rw [ha] at hok
        cases hc : parseContentField (args.lookup "content") with
        | error e => rw [hc] at hok; cases hok
        | ok content =>
          rw [hc] at hok
          cases ho : parseOptionalString (args.lookup "outputPath") with
          | error e => rw [ho] at hok; cases hok
          | ok outputPath =>
            rw [ho, hlook] at hok
            simp [parsePageSize, h1, h2, h3] at hok
  · intro args items fields q out hlook hmem htype hlevel hq hok
    obtain ⟨e, he⟩ := parseContentItem_heading_bad_level htype hlevel hq
    rw [createPdfSchemaParse] at hok
    cases ht : parseStringField (args.lookup "title") with
    | error e2 => rw [ht] at hok; cases hok
    | ok title =>
      rw [ht] at hok
      cases ha : parseOptionalString (args.lookup "author") with
      | error e2 => rw [ha] at hok; cases hok
      | ok author =>
        rw [ha, hlook] at hok
        cases hc : parseContentItems items with
        | error e2 => rw [parseContentField, hc] at hok; cases hok
        | ok content => exact parseContentItems_mem_error hmem he content hc
  · intro q r hok
    rw [parseHeadingLevel] at hok
    by_cases hq1 : q < 1
    · rw [if_pos hq1] at hok; cases hok
    · rw [if_neg hq1] at hok
      by_cases hq6 : 6 < q
      · rw [if_pos hq6] at hok; cases hok
      · rw [if_neg hq6] at hok
        cases hok
        rfl
  · intro v p hok
    cases v with
    | str s =>
      rw [parsePageSize] at hok
      by_cases h1 : s = "A4"
      · subst h1; rw [if_pos rfl] at hok; cases hok; exact Or.inl ⟨rfl, rfl⟩
      · rw [if_neg h1] at hok
        by_cases h2 : s = "Letter"
        · subst h2; rw [if_pos rfl] at hok; cases hok
          exact Or.inr (Or.inl ⟨rfl, rfl⟩)
        · rw [if_neg h2] at hok
          by_cases h3 : s = "Legal"
          · subst h3; rw [if_pos rfl] at hok; cases hok
            exact Or.inr (Or.inr ⟨rfl, rfl⟩)
          · rw [if_neg h3] at hok; cases hok
    | null => cases hok
    | bool b => cases hok
    | num q => cases hok
    | arr xs => cases hok
    | obj fs => cases hok

/-- Witness for C5: the page size "A3" is rejected, a heading level 7 is
rejected, and an in-range heading level 3 is returned unclamped. -/
theorem createPdf_closed_value_sets_witness :
    createPdfSchemaParse [("pageSize", .str "A3")]
      ≠ .ok ⟨"t", none, [], none, .a4⟩
    ∧ createPdfSchemaParse
        [("title", .str "t"),
         ("content", .arr [.obj [("type", .str "heading"),
                                 ("content", .str "h"), ("level", .num 7)]])]
      ≠ .ok ⟨"t", none, [.heading "h" 1], none, .a4⟩
    ∧ (parseHeadingLevel (some (.num 3)) = .ok 3 → (3 : Rat) = 3) := by
  refine ⟨?_, ?_, ?_⟩
  · exact createPdf_closed_value_sets.1 "A3" _ _ (by decide) (by decide) (by decide) rfl
  · exact createPdf_closed_value_sets.2.1 _
      [.obj [("type", .str "heading"), ("content", .str "h"), ("level", .num 7)]]
      [("type", .str "heading"), ("content", .str "h"), ("level", .num 7)] 7 _
      rfl (List.mem_singleton_self _) rfl rfl (Or.inr (by norm_num))
  · exact fun h => createPdf_closed_value_sets.2.2.1 3 3 h

/-- C6: the publish endpoint answers 400 with a missing-parameter body
when the session-identifier query parameter is absent, 404 with a body
identifying "session not found" when the identifier matches no open
session, forwards to the session's transport handler otherwise and relays
its reply, translates a thrown exception during handling into 500 — and
the three failure statuses are pairwise distinct and distinct from the
200 a tool-level failure reply travels on. -/
theorem postMessages_status_taxonomy {τ : Type} (transports : List (String × τ))
    (handle : τ → Except Thrown HttpResponse) :
    (postMessages transports none handle
      = ⟨400, .obj [("error", .str "Missing sessionId query parameter")]⟩)
    ∧ (∀ sid : String, sid ≠ "" → transports.lookup sid = none →
        postMessages transports (some sid) handle
          = ⟨404, .obj [("error", .str "Session not found. Connect to /sse first.")]⟩)
    ∧ (∀ (sid : String) (t : τ) (reply : HttpResponse), sid ≠ "" →
        transports.lookup sid = some t → handle t = .ok reply →
        postMessages transports (some sid) handle = reply)
    ∧ (∀ (sid : String) (t : τ) (e : Thrown), sid ≠ "" →
        transports.lookup sid = some t → handle t = .error e →
        postMessages transports (some sid) handle
          = ⟨500, .obj [("error", .str "Internal server error")]⟩)
    ∧ ((400 : Nat) ≠ 404 ∧ (400 : Nat) ≠ 500 ∧ (404 : Nat) ≠ 500
       ∧ (400 : Nat) ≠ 200 ∧ (404 : Nat) ≠ 200 ∧ (500 : Nat) ≠ 200) := by
  refine ⟨rfl, ?_, ?_, ?_, by norm_num⟩
  · intro sid hne hlook
    simp [postMessages, optStrTruthy_of_ne hne, hlook]
  · intro sid t reply hne hlook hhandle
    simp [postMessages, optStrTruthy_of_ne hne, hlook, hhandle]
  · intro sid t e hne hlook hhandle
    simp [postMessages, optStrTruthy_of_ne hne, hlook, hhandle]

/-- Witness for C6: on a one-session table, a missing parameter yields
400, an unknown id yields the 404 session-not-found body, a known id
relays the handler's reply, and a throwing handler yields 500. -/
theorem postMessages_status_taxonomy_witness :
    postMessages [("a", ())] none (fun _ => .ok ⟨200, .null⟩)
      = ⟨400, .obj [("error", .str "Missing sessionId query parameter")]⟩
    ∧ postMessages [("a", ())] (some "b") (fun _ => .ok ⟨200, .null⟩)
      = ⟨404, .obj [("error", .str "Session not found. Connect to /sse first.")]⟩
    ∧ postMessages [("a", ())] (some "a") (fun _ => .ok ⟨200, .null⟩) = ⟨200, .null⟩
    ∧ postMessages [("a", ())] (some "a") (fun _ => .error (Thrown.other "x"))
      = ⟨500, .obj [("error", .str "Internal server error")]⟩ :=
  ⟨(postMessages_status_taxonomy [("a", ())] (fun _ => .ok ⟨200, .null⟩)).1,
   (postMessages_status_taxonomy [("a", ())] (fun _ => .ok ⟨200, .null⟩)).2.1
     "b" (by decide) rfl,
   (postMessages_status_taxonomy [("a", ())] (fun _ => .ok ⟨200, .null⟩)).2.2.1
     "a" () ⟨200, .null⟩ (by decide) rfl rfl,
   (postMessages_status_taxonomy [("a", ())]
       (fun _ => .error (Thrown.other "x"))).2.2.2.1
     "a" () (Thrown.other "x") (by decide) rfl rfl⟩

/-- A key bound by no entry of an association list looks up to nothing. -/
theorem lookup_eq_none_of_forall_ne {τ : Type} {m : List (String × τ)} {k : String}
    (h : ∀ p ∈ m, p.1 ≠ k) : m.lookup k = none := by
  induction m with
  | nil => rfl
  | cons p rest ih =>
    have hp : p.1 ≠ k := h p (List.mem_cons_self p rest)
    have hbeq : (k == p.1) = false := beq_false_of_ne fun hk => hp hk.symm
    simp only [List.lookup, hbeq]
    exact ih fun q hq => h q (List.mem_cons_of_mem p hq)

/-- Looking up a key bound only by the appended final binding finds it. -/
theorem lookup_append_fresh {τ : Type} {m : List (String × τ)} {k : String} (v : τ)
    (h : ∀ p ∈ m, p.1 ≠ k) : (m ++ [(k, v)]).lookup k = some v := by
  induction m with
  | nil => simp [List.lookup]
  | cons p rest ih =>
    have hp : p.1 ≠ k := h p (List.mem_cons_self p rest)
    have hbeq : (k == p.1) = false := beq_false_of_ne fun hk => hp hk.symm
    simp only [List.cons_append, List.lookup, hbeq]
    exact ih fun q hq => h q (List.mem_cons_of_mem p hq)

/-- Setting a key absent from an association list appends the binding. -/
theorem mapSet_append_of_fresh {τ : Type} {m : List (String × τ)} {k : String}
    (v : τ) (h : ∀ p ∈ m, p.1 ≠ k) : mapSet m k v = m ++ [(k, v)] := by
  induction m with
  | nil => rfl
  | cons p rest ih =>
    have hp : p.1 ≠ k := h p (List.mem_cons_self p rest)
    cases p with
    | mk k' v' =>
      rw [mapSet, if_neg hp, ih fun q hq => h q (List.mem_cons_of_mem _ hq)]
      rfl

/-- Deleting a key bound by no entry changes nothing. -/
theorem mapDelete_of_fresh {τ : Type} {m : List (String × τ)} {k : String}
    (h : ∀ p ∈ m, p.1 ≠ k) : mapDelete m k = m := by
  rw [mapDelete, List.filter_eq_self]
  intro p hp
  simpa using h p hp

/-- Deleting the same key twice equals deleting it once. -/
theorem mapDelete_idem {τ : Type} (m : List (String × τ)) (k : String) :
    mapDelete (mapDelete m k) k = mapDelete m k := by
  induction m with
  | nil => rfl
  | cons p rest ih =>
    by_cases hp : p.1 ≠ k
    · simp only [mapDelete, List.filter] at ih ⊢
      rw [decide_eq_true hp]
      simp only [List.filter]
      rw [decide_eq_true hp]
      rw [show List.filter (fun q => decide (q.1 ≠ k))
            (List.filter (fun q => decide (q.1 ≠ k)) rest)
          = List.filter (fun q => decide (q.1 ≠ k)) rest from ih]
    · simp only [mapDelete, List.filter] at ih ⊢
      rw [decide_eq_false (not_not.mp (by simpa using hp))]
      exact ih

/-- C7: opening a session under a collision-free generated id (the model
of `crypto.randomUUID()`, whose collision probability the spec declares
negligible; a UUID is also nonempty) appends a fresh association leaving
every previously open session intact; after the close teardown removes
that association, a publish against the id fails with the
session-not-found reply; and once the session is closed, further
`closeSession` calls on the same id — twice over — are no-ops, and
closing never fails on any table (deletion of an absent id returns the
table unchanged, and repeating a deletion changes nothing). -/
theorem session_lifecycle {τ : Type} (transports : List (String × τ))
    (newId : String) (transport : τ)
    (hfresh : ∀ p ∈ transports, p.1 ≠ newId) (hne : newId ≠ "") :
    (openSession transports newId transport = transports ++ [(newId, transport)])
    ∧ ((openSession transports newId transport).lookup newId = some transport)
    ∧ (closeSession (openSession transports newId transport) newId = transports)
    ∧ ((closeSession (openSession transports newId transport) newId).lookup newId
        = none)
    ∧ (∀ handle : τ → Except Thrown HttpResponse,
        postMessages (closeSession (openSession transports newId transport) newId)
            (some newId) handle
          = ⟨404, .obj [("error", .str "Session not found. Connect to /sse first.")]⟩)
    ∧ (closeSession (closeSession (openSession transports newId transport) newId) newId
        = closeSession (openSession transports newId transport) newId)
    ∧ (closeSession (closeSession (closeSession (openSession transports newId transport)
          newId) newId) newId
        = closeSession (closeSession (openSession transports newId transport) newId)
            newId)
    ∧ (∀ (m : List (String × τ)) (k : String),
        closeSession (closeSession m k) k = closeSession m k)
    ∧ (∀ (m : List (String × τ)) (k : String), (∀ p ∈ m, p.1 ≠ k) →
        closeSession m k = m) := by
  have hopen : openSession transports newId transport = transports ++ [(newId, transport)] :=
    mapSet_append_of_fresh transport hfresh
  have hnone : transports.lookup newId = none := lookup_eq_none_of_forall_ne hfresh
  have hclose : closeSession (openSession transports newId transport) newId = transports := by
    rw [hopen, closeSession, mapDelete, List.filter_append]
    have h1 : List.filter (fun p => decide (p.1 ≠ newId)) transports = transports :=
      List.filter_eq_self.mpr fun p hp => by simpa using hfresh p hp
    have h2 : List.filter (fun p : String × τ => decide (p.1 ≠ newId)) [(newId, transport)]
        = [] := by simp
    rw [h1, h2, List.append_nil]
  refine ⟨hopen, ?_, hclose, ?_, ?_, ?_, ?_, fun m k => mapDelete_idem m k,
    fun m k h => mapDelete_of_fresh h⟩
  · rw [hopen]
    exact lookup_append_fresh transport hfresh
  · rw [hclose]; exact hnone
  · intro handle
    simp [postMessages, optStrTruthy_of_ne hne, hclose, hnone]
  · rw [hclose, closeSession, mapDelete_of_fresh hfresh]
  · rw [hclose, closeSession, closeSession, mapDelete_of_fresh hfresh,
      mapDelete_of_fresh hfresh]

/-- Witness for C7: a concrete one-session table with a fresh id "b". -/
theorem session_lifecycle_witness :
    (openSession [("a", 0)] "b" 1 = [("a", 0), ("b", 1)])
    ∧ ((openSession [("a", 0)] "b" 1).lookup "b" = some 1)
    ∧ (closeSession (openSession [("a", 0)] "b" 1) "b" = [("a", 0)])
    ∧ ((closeSession (openSession [("a", 0)] "b" 1) "b").lookup "b" = none)
    ∧ (postMessages (closeSession (openSession [("a", 0)] "b" 1) "b") (some "b")
          (fun _ => .ok ⟨200, .null⟩)
        = ⟨404, .obj [("error", .str "Session not found. Connect to /sse first.")]⟩)
    ∧ (closeSession (closeSession (openSession [("a", 0)] "b" 1) "b") "b"
        = closeSession (openSession [("a", 0)] "b" 1) "b") := by
  have h := session_lifecycle [("a", 0)] "b" 1 (by decide) (by decide)
  exact ⟨h.1, h.2.1, h.2.2.1, h.2.2.2.1, h.2.2.2.2.1 (fun _ => .ok ⟨200, .null⟩),
    h.2.2.2.2.2.1⟩

/-- C8: registering into an empty server yields exactly the exported
`toolList`, the names come out in the source registration order
create-pdf, create-docx, create-pptx, read-pdf, read-docx, read-pptx,
and the list holds no duplicate name. -/
theorem toolList_introspection :
    registerAllTools [] = toolList
    ∧ toolList.map ToolRegistration.name
      = [createPdfName, createDocxName, createPptxName,
         readPdfName, readDocxName, readPptxName]
    ∧ (toolList.map ToolRegistration.name).Nodup := by
  refine ⟨rfl, rfl, ?_⟩
  decide

/-- C9: whenever the read-pdf handler's resolved content buffer — read
from the resolved file path, or decoded from the base64 field when no
truthy path is supplied — has fewer than 5 bytes or does not begin with
the ASCII bytes of "%PDF-", the handler returns the result value
`\x7bsuccess: false, error: "Invalid PDF file: Missing %PDF header"\x7d`
(it is a total function, so it returns rather than raises), and the
response is independent of the extraction/AI-analysis block, which is
therefore never attempted. -/
theorem readPdf_header_guard (resolvePath : String → String)
    (fsRead : String → Except Thrown (List Nat)) (base64Decode : String → List Nat)
    (processPdf processPdf2 : List Nat → Option String → ToolResult)
    (input : ReadDocInput) (buf : List Nat)
    (hres : (optStrTruthy input.filePath = true
              ∧ fsRead (resolvePath (input.filePath.getD "")) = .ok buf)
            ∨ (optStrTruthy input.filePath = false
              ∧ optStrTruthy input.base64Content = true
              ∧ base64Decode (input.base64Content.getD "") = buf))
    (hbad : buf.length < 5 ∨ buf.take 5 ≠ pdfHeaderBytes) :
    readPdfHandler resolvePath fsRead base64Decode processPdf input
      = failResult pdfHeaderErrorMsg
    ∧ readPdfHandler resolvePath fsRead base64Decode processPdf input
      = readPdfHandler resolvePath fsRead base64Decode processPdf2 input := by
  have hguard : ∀ proc : List Nat → Option String → ToolResult,
      readPdfAfterResolve proc buf input.prompt = failResult pdfHeaderErrorMsg :=
    fun proc => by rw [readPdfAfterResolve, if_pos hbad]
  rcases hres with ⟨ht, hread⟩ | ⟨hf, ht, hdec⟩
  · simp [readPdfHandler, ht, hread, hguard]
  · simp [readPdfHandler, hf, ht, hdec, hguard]

/-- Witness for C9: a base64-supplied buffer decoding to the single byte
65 trips the header guard, whatever the extraction block would do. -/
theorem readPdf_header_guard_witness :
    readPdfHandler id (fun _ => .ok []) (fun _ => [65])
        (fun _ _ => failResult "x") ⟨none, some "QQ==", none⟩
      = failResult pdfHeaderErrorMsg
    ∧ readPdfHandler id (fun _ => .ok []) (fun _ => [65])
        (fun _ _ => failResult "x") ⟨none, some "QQ==", none⟩
      = readPdfHandler id (fun _ => .ok []) (fun _ => [65])
          (fun _ _ => ⟨true, []⟩) ⟨none, some "QQ==", none⟩ :=
  readPdf_header_guard id (fun _ => .ok []) (fun _ => [65])
    (fun _ _ => failResult "x") (fun _ _ => ⟨true, []⟩)
    ⟨none, some "QQ==", none⟩ [65]
    (Or.inr ⟨rfl, rfl, rfl⟩) (Or.inl (by decide))

/-- C10: for every valid create-pptx input with an empty slides array the
handler still succeeds — the built presentation is exactly one default
title slide showing the title (and `By <author>` when an author is
supplied), and the result has `success: true` with `slideCount` 1; for a
non-empty slides array the result's `slideCount` equals the number of
slides supplied. -/
theorem createPptx_default_slide_and_count
    (writeBase64 : List (List SlideItem) → String) (resolveOut : String → String)
    (input : CreatePptxInput) :
    (input.slides = [] →
      buildPresentation input = [defaultTitleSlide input.title input.author]
      ∧ SlideItem.text input.title ∈ defaultTitleSlide input.title input.author
      ∧ (optStrTruthy input.author = true →
          SlideItem.text ("By " ++ input.author.getD "")
            ∈ defaultTitleSlide input.title input.author)
      ∧ (createPptxHandler writeBase64 resolveOut input).success = true
      ∧ (createPptxHandler writeBase64 resolveOut input).extra.lookup "slideCount"
          = some (.num 1))
    ∧ (input.slides ≠ [] →
      (createPptxHandler writeBase64 resolveOut input).success = true
      ∧ (createPptxHandler writeBase64 resolveOut input).extra.lookup "slideCount"
          = some (.num input.slides.length)) := by
  constructor
  · intro hempty
    refine ⟨?_, ?_, ?_, ?_, ?_⟩
    · rw [buildPresentation, hempty]
      rfl
    · rw [defaultTitleSlide]
      exact List.mem_append_left _ (List.mem_singleton_self _)
    · intro hauthor
      rw [defaultTitleSlide]
      refine List.mem_append_right _ ?_
      rw [if_pos hauthor]
      exact List.mem_singleton_self _
    · rw [createPptxHandler]
      cases optStrTruthy input.outputPath <;> simp
    · rw [createPptxHandler]
      have : jsOrNat input.slides.length 1 = 1 := by rw [hempty]; rfl
      cases optStrTruthy input.outputPath <;>
        simp [this, List.lookup]
  · intro hne
    have hlen : input.slides.length ≠ 0 := by
      simpa using fun h => hne (List.length_eq_zero.mp h)
    have : jsOrNat input.slides.length 1 = input.slides.length := by
      rw [jsOrNat, if_neg hlen]
    constructor
    · rw [createPptxHandler]
      cases optStrTruthy input.outputPath <;> simp
    · rw [createPptxHandler]
      cases optStrTruthy input.outputPath <;> simp [this, List.lookup]

/-- Witness for C10: with no slides supplied, a title "T" and author
"Ann", the presentation is the single default title slide carrying the
title text and the `By Ann` text, and the result reports success with
slide count 1; with one blank slide supplied, the slide count is 1 as the
number of slides. -/
theorem createPptx_default_slide_and_count_witness :
    buildPresentation ⟨"T", some "Ann", none, [], none⟩
      = [defaultTitleSlide "T" (some "Ann")]
    ∧ SlideItem.text "T" ∈ defaultTitleSlide "T" (some "Ann")
    ∧ SlideItem.text "By Ann" ∈ defaultTitleSlide "T" (some "Ann")
    ∧ (createPptxHandler (fun _ => "ZZ") id ⟨"T", some "Ann", none, [], none⟩).success
      = true
    ∧ (createPptxHandler (fun _ => "ZZ") id
        ⟨"T", some "Ann", none, [], none⟩).extra.lookup "slideCount"
      = some (.num 1)
    ∧ (createPptxHandler (fun _ => "ZZ") id
        ⟨"T", none, none, [⟨none, none, .blank, [], none, none⟩], none⟩).extra.lookup
          "slideCount"
      = some (.num ([(⟨none, none, .blank, [], none, none⟩ : PptxSlide)].length)) := by
  have h := createPptx_default_slide_and_count (fun _ => "ZZ") id
    ⟨"T", some "Ann", none, [], none⟩
  have h2 := createPptx_default_slide_and_count (fun _ => "ZZ") id
    ⟨"T", none, none, [⟨none, none, .blank, [], none, none⟩], none⟩
  obtain ⟨ha, hb, hc, hd, he⟩ := h.1 rfl
  exact ⟨ha, hb, hc rfl, hd, he, (h2.2 (by simp)).2⟩

end DocsMcp
